import Mathlib

/-!
Shallow embedding of the `termion-raw2` raw-mode guard library.

The library wraps a writable, descriptor-exposing handle, captures the
terminal attributes (`termios`) at construction, applies the platform raw
transform (`cfmakeraw`), and restores the captured attributes when the
guard is dropped.  The OS terminal-control interface is an external
collaborator; here every syscall outcome is supplied explicitly as a
return code plus the ambient `errno` value, and the device's live
attribute state is threaded as explicit state.  The termios structure is
opaque to the library, so it is a type parameter `T`, and the external
pure transform `cfmakeraw` is a parameter `makeRaw : T → T`.
-/

namespace TermionRaw

variable {T : Type} {W : Type} {E : Type}

/-- Embedding of the `IsMinusOne` trait from `sys.rs`: `*self == -1`.
The source implements it for `i8 i16 i32 i64 isize`; all are subranges of
`Int`, on which the `-1` test is the same predicate. -/
def is_minus_one (t : Int) : Bool :=
  decide (t = -1)

/-- Embedding of `cvt` from `sys.rs`: a syscall return value is an error
exactly when it equals `-1`, in which case the error carries the OS's last
reported error (`io::Error::last_os_error()`, passed here explicitly as
`lastOsError`); any other value is returned unchanged as success. -/
def cvt (lastOsError : Nat) (t : Int) : Except Nat Int :=
  if is_minus_one t then Except.error lastOsError else Except.ok t

/-- Outcome of one OS terminal-control syscall, resolved by the
environment: the raw return code and the ambient `errno` at that moment. -/
structure Syscall where
  ret : Int
  errno : Nat
  deriving Repr, DecidableEq

/-- Embedding of `get_terminal_attr` from `sys.rs`: run `tcgetattr`
(outcome `c`), translate the return code through `cvt`; on success the
out-parameter holds the device's live attributes, which are returned. -/
def get_terminal_attr (c : Syscall) (live : T) : Except Nat T :=
  match cvt c.errno c.ret with
  | Except.error e => Except.error e
  | Except.ok _ => Except.ok live

/-- Embedding of `set_terminal_attr` from `sys.rs`: run
`tcsetattr(fd, TCSANOW, termios)` (outcome `c`), translate through `cvt`.
The source returns `io::Result<()>`; here the success value is the
device's new live attribute state, namely the written value `v`. -/
def set_terminal_attr (c : Syscall) (v : T) : Except Nat T :=
  match cvt c.errno c.ret with
  | Except.error e => Except.error e
  | Except.ok _ => Except.ok v

/-- Embedding of `raw_terminal_attr` from `sys.rs`: apply the external
platform transform `cfmakeraw` (the parameter `makeRaw`) to the termios
value. -/
def raw_terminal_attr (makeRaw : T → T) (termios : T) : T :=
  makeRaw termios

/-- Embedding of the `RawTerminal<W>` guard from `lib.rs`: the saved
attributes captured at creation and the wrapped output handle. -/
structure RawTerminal (T : Type) (W : Type) where
  prev_ios : T
  output : W
  deriving Repr, DecidableEq

/-- Embedding of `IntoRawMode::into_raw_mode` from `lib.rs`.  `cg` and
`cs` are the outcomes of the `tcgetattr` and `tcsetattr` calls, `live` the
device's live attributes at entry.  Returns the Rust result together with
the device's live attributes after the call:

    let mut ios = get_terminal_attr(fd)?;
    let prev_ios = ios;
    raw_terminal_attr(&mut ios);
    set_terminal_attr(fd, &ios)?;
    Ok(RawTerminal { prev_ios, output: self })
-/
def into_raw_mode (makeRaw : T → T) (cg cs : Syscall) (output : W)
    (live : T) : Except Nat (RawTerminal T W) × T :=
  match get_terminal_attr cg live with
  | Except.error e => (Except.error e, live)
  | Except.ok ios0 =>
    let prev_ios := ios0
    let ios := raw_terminal_attr makeRaw ios0
    match set_terminal_attr cs ios with
    | Except.error e => (Except.error e, live)
    | Except.ok live2 => (Except.ok ⟨prev_ios, output⟩, live2)

/-- Embedding of `RawTerminal::suspend_raw_mode` from `lib.rs`: apply the
guard's saved attributes (`set_terminal_attr(fd, &self.prev_ios)?`).  The
guard is taken by shared reference in the source and is not modified. -/
def RawTerminal.suspend_raw_mode (c : Syscall) (g : RawTerminal T W)
    (live : T) : Except Nat Unit × T :=
  match set_terminal_attr c g.prev_ios with
  | Except.error e => (Except.error e, live)
  | Except.ok live2 => (Except.ok (), live2)

/-- Embedding of `RawTerminal::activate_raw_mode` from `lib.rs`: re-query
the current live attributes, derive a fresh raw variant, apply it:

    let mut ios = get_terminal_attr(fd)?;
    raw_terminal_attr(&mut ios);
    set_terminal_attr(fd, &ios)?;
-/
def RawTerminal.activate_raw_mode (makeRaw : T → T) (cg cs : Syscall)
    (g : RawTerminal T W) (live : T) : Except Nat Unit × T :=
  match get_terminal_attr cg live with
  | Except.error e => (Except.error e, live)
  | Except.ok ios0 =>
    match set_terminal_attr cs (raw_terminal_attr makeRaw ios0) with
    | Except.error e => (Except.error e, live)
    | Except.ok live2 => (Except.ok (), live2)

/-- Embedding of `impl Drop for RawTerminal`: apply the saved attributes,
discarding any error (`let _ = set_terminal_attr(fd, &self.prev_ios);`).
Total: no error escapes; on failure the live attributes are unchanged. -/
def RawTerminal.drop (c : Syscall) (g : RawTerminal T W) (live : T) : T :=
  match set_terminal_attr c g.prev_ios with
  | Except.error _ => live
  | Except.ok live2 => live2

/-- Model of the wrapped handle's `Write` capability: `write` consumes a
byte buffer and returns the handle's own result plus its next state;
`flush` likewise. -/
structure Writer (W : Type) (E : Type) where
  writeFn : W → List Nat → Except E Nat × W
  flushFn : W → Except E Unit × W

/-- Embedding of `Write::write` for `RawTerminal`: `self.output.write(buf)`
— delegate to the wrapped handle, updating only the `output` field. -/
def RawTerminal.write (wr : Writer W E) (g : RawTerminal T W)
    (buf : List Nat) : Except E Nat × RawTerminal T W :=
  let p := wr.writeFn g.output buf
  (p.1, ⟨g.prev_ios, p.2⟩)

/-- Embedding of `Write::flush` for `RawTerminal`: `self.output.flush()`. -/
def RawTerminal.flush (wr : Writer W E) (g : RawTerminal T W) :
    Except E Unit × RawTerminal T W :=
  let p := wr.flushFn g.output
  (p.1, ⟨g.prev_ios, p.2⟩)

/-- A concrete wrapped handle whose state is the ordered log of buffers it
has observed: each `write` appends the buffer and reports its length. -/
def sinkWriter : Writer (List (List Nat)) Empty :=
  ⟨fun s buf => (Except.ok buf.length, s ++ [buf]),
   fun s => (Except.ok (), s)⟩

/-- One operation performed on a live guard during its lifetime. -/
inductive GOp where
  | write (buf : List Nat)
  | flush
  | suspend (c : Syscall)
  | activate (cg cs : Syscall)
  deriving Repr, DecidableEq

/-- Effect of one guard operation on the guard and the device's live
attributes (per-operation results are discarded by the driver). -/
def stepOp (makeRaw : T → T) (wr : Writer W E) (g : RawTerminal T W)
    (live : T) : GOp → RawTerminal T W × T
  | GOp.write buf => ((RawTerminal.write wr g buf).2, live)
  | GOp.flush => ((RawTerminal.flush wr g).2, live)
  | GOp.suspend c => (g, (RawTerminal.suspend_raw_mode c g live).2)
  | GOp.activate cg cs =>
      (g, (RawTerminal.activate_raw_mode makeRaw cg cs g live).2)

/-- Run a sequence of guard operations. -/
def runOps (makeRaw : T → T) (wr : Writer W E) :
    List GOp → RawTerminal T W × T → RawTerminal T W × T
  | [], s => s
  | op :: ops, (g, live) => runOps makeRaw wr ops (stepOp makeRaw wr g live op)

/-- A guard's whole lifetime after construction: run the operations, then
Rust's ownership semantics invoke `Drop` exactly once when the lifetime
ends.  Returns the final live attributes together with the log of
restoration attempts made by the destructor (the attribute value each
attempt applied). -/
def lifecycle (makeRaw : T → T) (wr : Writer W E) (ops : List GOp)
    (cd : Syscall) (g : RawTerminal T W) (live : T) : T × List T :=
  let s := runOps makeRaw wr ops (g, live)
  (RawTerminal.drop cd s.1 s.2, [s.1.prev_ios])

/-! Helper lemmas shared by the claim theorems. -/

theorem cvt_of_ne (e : Nat) {t : Int} (h : t ≠ -1) : cvt e t = Except.ok t := by
  simp [cvt, is_minus_one, h]

theorem cvt_of_eq (e : Nat) {t : Int} (h : t = -1) : cvt e t = Except.error e := by
  simp [cvt, is_minus_one, h]

theorem get_terminal_attr_of_ok {c : Syscall} (h : c.ret ≠ -1) (live : T) :
    get_terminal_attr c live = Except.ok live := by
  simp [get_terminal_attr, cvt_of_ne c.errno h]

theorem get_terminal_attr_of_err {c : Syscall} (h : c.ret = -1) (live : T) :
    get_terminal_attr c live = Except.error c.errno := by
  simp [get_terminal_attr, cvt_of_eq c.errno h]

theorem set_terminal_attr_of_ok {c : Syscall} (h : c.ret ≠ -1) (v : T) :
    set_terminal_attr c v = Except.ok v := by
  simp [set_terminal_attr, cvt_of_ne c.errno h]

theorem set_terminal_attr_of_err {c : Syscall} (h : c.ret = -1) (v : T) :
    set_terminal_attr c v = Except.error c.errno := by
  simp [set_terminal_attr, cvt_of_eq c.errno h]

theorem into_raw_mode_ok_eq (makeRaw : T → T) {cg cs : Syscall} (output : W)
    (live : T) (hg : cg.ret ≠ -1) (hs : cs.ret ≠ -1) :
    into_raw_mode makeRaw cg cs output live
      = (Except.ok ⟨live, output⟩, raw_terminal_attr makeRaw live) := by
  simp [into_raw_mode, get_terminal_attr_of_ok hg, set_terminal_attr_of_ok hs]

theorem stepOp_prev_ios (makeRaw : T → T) (wr : Writer W E)
    (g : RawTerminal T W) (live : T) (op : GOp) :
    (stepOp makeRaw wr g live op).1.prev_ios = g.prev_ios := by
  cases op <;> rfl

theorem runOps_prev_ios (makeRaw : T → T) (wr : Writer W E) (ops : List GOp) :
    ∀ (g : RawTerminal T W) (live : T),
      (runOps makeRaw wr ops (g, live)).1.prev_ios = g.prev_ios := by
  induction ops with
  | nil => intro g live; rfl
  | cons op ops ih =>
    intro g live
    rcases hs : stepOp makeRaw wr g live op with ⟨g2, live2⟩
    have hstep : runOps makeRaw wr (op :: ops) (g, live)
        = runOps makeRaw wr ops (g2, live2) := by
      simp [runOps, hs]
    have hprev := stepOp_prev_ios makeRaw wr g live op
    rw [hs] at hprev
    rw [hstep, ih g2 live2]
    exact hprev

/-! Claim theorems. -/

/-- Claim C1: round-trip.  If the attribute query succeeds with snapshot
`live` (= A), `into_raw_mode` succeeds, and the guard it returned is then
destroyed (drop syscall succeeding), the live attributes equal the
pre-capture snapshot `live` again. -/
theorem into_raw_mode_drop_roundtrip (makeRaw : T → T) (cg cs cd : Syscall)
    (output : W) (live live1 : T) (g : RawTerminal T W)
    (hg : cg.ret ≠ -1) (hs : cs.ret ≠ -1) (hd : cd.ret ≠ -1)
    (h : into_raw_mode makeRaw cg cs output live = (Except.ok g, live1)) :
    RawTerminal.drop cd g live1 = live := by
  rw [into_raw_mode_ok_eq makeRaw output live hg hs] at h
  have hg2 : g = ⟨live, output⟩ := by
    have := congrArg Prod.fst h
    simpa using this.symm
  subst hg2
  simp [RawTerminal.drop, set_terminal_attr_of_ok hd]

/-- Witness for C1 at concrete inputs. -/
theorem into_raw_mode_drop_roundtrip_witness :
    RawTerminal.drop ⟨0, 0⟩ (⟨7, ()⟩ : RawTerminal Nat Unit) 8 = 7 :=
  into_raw_mode_drop_roundtrip (fun n => n + 1) ⟨0, 0⟩ ⟨0, 0⟩ ⟨0, 0⟩ () 7 8
    ⟨7, ()⟩ (by decide) (by decide) (by decide) (by rfl)

/-- Claim C2: postcondition of `into_raw_mode`.  On success it has queried
the current attributes A (= `live`), stored A unmodified as the guard's
saved attributes, and applied `make_raw(A)` to the descriptor: the result
is the guard `{prev_ios = A, output}` and the live attributes are
`raw_terminal_attr makeRaw A`. -/
theorem into_raw_mode_postcondition (makeRaw : T → T) (cg cs : Syscall)
    (output : W) (live : T) (hg : cg.ret ≠ -1) (hs : cs.ret ≠ -1) :
    into_raw_mode makeRaw cg cs output live
      = (Except.ok ⟨live, output⟩, raw_terminal_attr makeRaw live) :=
  into_raw_mode_ok_eq makeRaw output live hg hs

/-- Witness for C2 at concrete inputs. -/
theorem into_raw_mode_postcondition_witness :
    into_raw_mode (fun n => n + 1) ⟨0, 0⟩ ⟨0, 0⟩ () 7
      = (Except.ok ⟨7, ()⟩, 8) := by
  simpa [raw_terminal_attr] using
    into_raw_mode_postcondition (fun n => n + 1) ⟨0, 0⟩ ⟨0, 0⟩ () 7
      (by decide) (by decide)

/-- Claim C3: destruction contract.  Over a guard's whole lifetime —
any sequence of write/flush/suspend/activate operations followed by the
end of its lifetime — exactly one automatic restoration attempt is made,
and it applies the attributes saved at creation; if the restoring syscall
succeeds the live attributes become the saved ones, and if it fails the
error is discarded (`lifecycle` is total) and the live attributes are
left as the operations produced them. -/
theorem drop_restore_exactly_once (makeRaw : T → T) (wr : Writer W E)
    (ops : List GOp) (cd : Syscall) (g : RawTerminal T W) (live : T) :
    (lifecycle makeRaw wr ops cd g live).2 = [g.prev_ios]
    ∧ (cd.ret ≠ -1 → (lifecycle makeRaw wr ops cd g live).1 = g.prev_ios)
    ∧ (cd.ret = -1 →
        (lifecycle makeRaw wr ops cd g live).1
          = (runOps makeRaw wr ops (g, live)).2) := by
  refine ⟨?_, ?_, ?_⟩
  · simp [lifecycle, runOps_prev_ios]
  · intro hd
    simp [lifecycle, RawTerminal.drop, set_terminal_attr_of_ok hd,
      runOps_prev_ios]
  · intro hd
    simp [lifecycle, RawTerminal.drop, set_terminal_attr_of_err hd]

/-- Witness for C3 at concrete inputs: one suspend/activate cycle, then
destruction. -/
theorem drop_restore_exactly_once_witness :
    (lifecycle (fun n => n + 1) sinkWriter
        [GOp.suspend ⟨0, 0⟩, GOp.activate ⟨0, 0⟩ ⟨0, 0⟩] ⟨0, 0⟩
        (⟨3, []⟩ : RawTerminal Nat (List (List Nat))) 9).2 = [3]
    ∧ (lifecycle (fun n => n + 1) sinkWriter
        [GOp.suspend ⟨0, 0⟩, GOp.activate ⟨0, 0⟩ ⟨0, 0⟩] ⟨0, 0⟩
        (⟨3, []⟩ : RawTerminal Nat (List (List Nat))) 9).1 = 3 :=
  ⟨(drop_restore_exactly_once (fun n => n + 1) sinkWriter
      [GOp.suspend ⟨0, 0⟩, GOp.activate ⟨0, 0⟩ ⟨0, 0⟩] ⟨0, 0⟩ ⟨3, []⟩ 9).1,
   (drop_restore_exactly_once (fun n => n + 1) sinkWriter
      [GOp.suspend ⟨0, 0⟩, GOp.activate ⟨0, 0⟩ ⟨0, 0⟩] ⟨0, 0⟩ ⟨3, []⟩ 9).2.1
     (by decide)⟩

/-- Claim C4: error atomicity of `into_raw_mode`.  If the attribute query
fails, the operation returns that system error, produces no guard, and the
live attributes are untouched; if the query succeeds but the apply fails,
it returns the apply's error and the live attributes are still untouched. -/
theorem into_raw_mode_error_atomic (makeRaw : T → T) (cg cs : Syscall)
    (output : W) (live : T) :
    (cg.ret = -1 →
      into_raw_mode makeRaw cg cs output live = (Except.error cg.errno, live))
    ∧ (cg.ret ≠ -1 → cs.ret = -1 →
      into_raw_mode makeRaw cg cs output live
        = (Except.error cs.errno, live)) := by
  constructor
  · intro hg
    simp [into_raw_mode, get_terminal_attr_of_err hg]
  · intro hg hs
    simp [into_raw_mode, get_terminal_attr_of_ok hg,
      set_terminal_attr_of_err hs]

/-- Witness for C4 at concrete inputs: query failure, then apply failure. -/
theorem into_raw_mode_error_atomic_witness :
    into_raw_mode (fun n => n + 1) ⟨-1, 7⟩ ⟨0, 0⟩ () 5
        = (Except.error 7, 5)
    ∧ into_raw_mode (fun n => n + 1) ⟨0, 0⟩ ⟨-1, 9⟩ () 5
        = (Except.error 9, 5) :=
  ⟨(into_raw_mode_error_atomic (fun n => n + 1) ⟨-1, 7⟩ ⟨0, 0⟩ () 5).1 rfl,
   (into_raw_mode_error_atomic (fun n => n + 1) ⟨0, 0⟩ ⟨-1, 9⟩ () 5).2
     (by decide) rfl⟩

/-- Claim C5: activate asymmetry.  `activate_raw_mode` re-queries the live
attributes, derives a fresh raw variant from that live snapshot and
applies it, so on success the live attributes become `makeRaw` of the live
attributes at call time; and its result does not depend on the guard at
all — in particular not on the guard's saved attributes. -/
theorem activate_raw_mode_fresh (makeRaw : T → T) (cg cs : Syscall)
    (g g2 : RawTerminal T W) (live : T) :
    (cg.ret ≠ -1 → cs.ret ≠ -1 →
      RawTerminal.activate_raw_mode makeRaw cg cs g live
        = (Except.ok (), raw_terminal_attr makeRaw live))
    ∧ RawTerminal.activate_raw_mode makeRaw cg cs g live
        = RawTerminal.activate_raw_mode makeRaw cg cs g2 live := by
  constructor
  · intro hg hs
    simp [RawTerminal.activate_raw_mode, get_terminal_attr_of_ok hg,
      set_terminal_attr_of_ok hs]
  · rfl

/-- Witness for C5 at concrete inputs: guards with different saved
attributes give the same activation result. -/
theorem activate_raw_mode_fresh_witness :
    RawTerminal.activate_raw_mode (fun n => n + 1) ⟨0, 0⟩ ⟨0, 0⟩
        (⟨3, ()⟩ : RawTerminal Nat Unit) 5
      = (Except.ok (), 6)
    ∧ RawTerminal.activate_raw_mode (fun n => n + 1) ⟨0, 0⟩ ⟨0, 0⟩
        (⟨3, ()⟩ : RawTerminal Nat Unit) 5
      = RawTerminal.activate_raw_mode (fun n => n + 1) ⟨0, 0⟩ ⟨0, 0⟩
        (⟨100, ()⟩ : RawTerminal Nat Unit) 5 :=
  ⟨(activate_raw_mode_fresh (fun n => n + 1) ⟨0, 0⟩ ⟨0, 0⟩ ⟨3, ()⟩ ⟨3, ()⟩ 5).1
     (by decide) (by decide),
   (activate_raw_mode_fresh (fun n => n + 1) ⟨0, 0⟩ ⟨0, 0⟩ ⟨3, ()⟩
     ⟨100, ()⟩ 5).2⟩

/-- Claim C6: idempotence of suspend.  A successful `suspend_raw_mode`
applies the guard's saved attributes (the stored saved value being
untouched — the guard is taken by shared reference), so a second
successful suspend leaves the live attribute state exactly as after the
first. -/
theorem suspend_raw_mode_idempotent (c1 c2 : Syscall) (g : RawTerminal T W)
    (live : T) (h1 : c1.ret ≠ -1) (h2 : c2.ret ≠ -1) :
    (RawTerminal.suspend_raw_mode c1 g live).2 = g.prev_ios
    ∧ (RawTerminal.suspend_raw_mode c2 g
        (RawTerminal.suspend_raw_mode c1 g live).2).2
      = (RawTerminal.suspend_raw_mode c1 g live).2 := by
  constructor
  · simp [RawTerminal.suspend_raw_mode, set_terminal_attr_of_ok h1]
  · simp [RawTerminal.suspend_raw_mode, set_terminal_attr_of_ok h1,
      set_terminal_attr_of_ok h2]

/-- Witness for C6 at concrete inputs. -/
theorem suspend_raw_mode_idempotent_witness :
    (RawTerminal.suspend_raw_mode ⟨0, 0⟩ (⟨3, ()⟩ : RawTerminal Nat Unit)
        9).2 = 3
    ∧ (RawTerminal.suspend_raw_mode ⟨0, 0⟩ (⟨3, ()⟩ : RawTerminal Nat Unit)
        (RawTerminal.suspend_raw_mode ⟨0, 0⟩
          (⟨3, ()⟩ : RawTerminal Nat Unit) 9).2).2
      = (RawTerminal.suspend_raw_mode ⟨0, 0⟩
          (⟨3, ()⟩ : RawTerminal Nat Unit) 9).2 :=
  suspend_raw_mode_idempotent ⟨0, 0⟩ ⟨0, 0⟩ ⟨3, ()⟩ 9 (by decide) (by decide)

/-- Claim C7: idempotence of activate.  Assuming the raw transform
satisfies `makeRaw (makeRaw x) = makeRaw x`, two successful activations in
a row from the same starting live state end in the same live raw state as
one. -/
theorem activate_raw_mode_idempotent (makeRaw : T → T)
    (hR : ∀ x, makeRaw (makeRaw x) = makeRaw x) (cg1 cs1 cg2 cs2 : Syscall)
    (g : RawTerminal T W) (live : T) (hg1 : cg1.ret ≠ -1)
    (hs1 : cs1.ret ≠ -1) (hg2 : cg2.ret ≠ -1) (hs2 : cs2.ret ≠ -1) :
    (RawTerminal.activate_raw_mode makeRaw cg2 cs2 g
        (RawTerminal.activate_raw_mode makeRaw cg1 cs1 g live).2).2
      = (RawTerminal.activate_raw_mode makeRaw cg1 cs1 g live).2 := by
  simp [RawTerminal.activate_raw_mode, get_terminal_attr_of_ok hg1,
    set_terminal_attr_of_ok hs1, get_terminal_attr_of_ok hg2,
    set_terminal_attr_of_ok hs2, raw_terminal_attr, hR]

/-- Witness for C7 at concrete inputs, with an idempotent transform. -/
theorem activate_raw_mode_idempotent_witness :
    (RawTerminal.activate_raw_mode (fun n => n / 2 * 2) ⟨0, 0⟩ ⟨0, 0⟩
        (⟨3, ()⟩ : RawTerminal Nat Unit)
        (RawTerminal.activate_raw_mode (fun n => n / 2 * 2) ⟨0, 0⟩ ⟨0, 0⟩
          (⟨3, ()⟩ : RawTerminal Nat Unit) 9).2).2
      = (RawTerminal.activate_raw_mode (fun n => n / 2 * 2) ⟨0, 0⟩ ⟨0, 0⟩
          (⟨3, ()⟩ : RawTerminal Nat Unit) 9).2 :=
  activate_raw_mode_idempotent (fun n => n / 2 * 2)
    (fun x => by show x / 2 * 2 / 2 * 2 = x / 2 * 2; omega) ⟨0, 0⟩ ⟨0, 0⟩ ⟨0, 0⟩
    ⟨0, 0⟩ ⟨3, ()⟩ 9 (by decide) (by decide) (by decide) (by decide)

/-- Claim C8: write-once saved-attributes invariant.  Over any sequence of
write/flush/suspend/activate operations the guard's saved attributes are
never mutated, and the value a succeeding destructor applies equals the
value captured at creation. -/
theorem saved_attrs_write_once (makeRaw : T → T) (wr : Writer W E)
    (ops : List GOp) (cd : Syscall) (g : RawTerminal T W) (live l : T) :
    (runOps makeRaw wr ops (g, live)).1.prev_ios = g.prev_ios
    ∧ (cd.ret ≠ -1 →
        RawTerminal.drop cd (runOps makeRaw wr ops (g, live)).1 l
          = g.prev_ios) := by
  constructor
  · exact runOps_prev_ios makeRaw wr ops g live
  · intro hd
    simp [RawTerminal.drop, set_terminal_attr_of_ok hd,
      runOps_prev_ios makeRaw wr ops g live]

/-- Witness for C8 at concrete inputs. -/
theorem saved_attrs_write_once_witness :
    (runOps (fun n => n + 1) sinkWriter
        [GOp.write [65], GOp.suspend ⟨0, 0⟩, GOp.activate ⟨0, 0⟩ ⟨0, 0⟩,
          GOp.flush]
        ((⟨3, []⟩ : RawTerminal Nat (List (List Nat))), 9)).1.prev_ios = 3
    ∧ RawTerminal.drop ⟨0, 0⟩
        (runOps (fun n => n + 1) sinkWriter
          [GOp.write [65], GOp.suspend ⟨0, 0⟩, GOp.activate ⟨0, 0⟩ ⟨0, 0⟩,
            GOp.flush]
          ((⟨3, []⟩ : RawTerminal Nat (List (List Nat))), 9)).1 4 = 3 :=
  ⟨(saved_attrs_write_once (fun n => n + 1) sinkWriter
      [GOp.write [65], GOp.suspend ⟨0, 0⟩, GOp.activate ⟨0, 0⟩ ⟨0, 0⟩,
        GOp.flush] ⟨0, 0⟩ ⟨3, []⟩ 9 4).1,
   (saved_attrs_write_once (fun n => n + 1) sinkWriter
      [GOp.write [65], GOp.suspend ⟨0, 0⟩, GOp.activate ⟨0, 0⟩ ⟨0, 0⟩,
        GOp.flush] ⟨0, 0⟩ ⟨3, []⟩ 9 4).2 (by decide)⟩

/-- Claim C9: transparent forwarding.  The guard's `write`/`flush`
delegate to the wrapped handle: the result (success value or the handle's
own error) is returned unchanged, the handle advances exactly as if called
directly, the saved attributes are untouched, and for the concrete logging
sink the handle observes exactly the passed buffer, appended in order. -/
theorem write_flush_transparent (wr : Writer W E) (g : RawTerminal T W)
    (buf : List Nat) (gs : RawTerminal T (List (List Nat))) :
    (RawTerminal.write wr g buf).1 = (wr.writeFn g.output buf).1
    ∧ (RawTerminal.write wr g buf).2.output = (wr.writeFn g.output buf).2
    ∧ (RawTerminal.write wr g buf).2.prev_ios = g.prev_ios
    ∧ (RawTerminal.flush wr g).1 = (wr.flushFn g.output).1
    ∧ (RawTerminal.flush wr g).2.output = (wr.flushFn g.output).2
    ∧ (RawTerminal.flush wr g).2.prev_ios = g.prev_ios
    ∧ (RawTerminal.write sinkWriter gs buf).2.output = gs.output ++ [buf]
    ∧ (RawTerminal.write sinkWriter gs buf).1 = Except.ok buf.length :=
  ⟨rfl, rfl, rfl, rfl, rfl, rfl, rfl, rfl⟩

/-- Claim C10: error translation threshold.  `cvt` returns an error
(carrying the OS's last reported error) iff its argument is exactly `-1`;
every other value, other negatives included, is returned as success
unchanged.  Hence `get_terminal_attr` and `set_terminal_attr` fail exactly
when the underlying call returns `-1`. -/
theorem cvt_minus_one_threshold (e : Nat) (t : Int) (c : Syscall)
    (live v : T) :
    (cvt e t = Except.error e ↔ t = -1)
    ∧ (t ≠ -1 → cvt e t = Except.ok t)
    ∧ (get_terminal_attr c live = Except.error c.errno ↔ c.ret = -1)
    ∧ (c.ret ≠ -1 → get_terminal_attr c live = Except.ok live)
    ∧ (set_terminal_attr c v = Except.error c.errno ↔ c.ret = -1)
    ∧ (c.ret ≠ -1 → set_terminal_attr c v = Except.ok v) := by
  refine ⟨⟨?_, fun h => cvt_of_eq e h⟩, fun h => cvt_of_ne e h,
    ⟨?_, fun h => get_terminal_attr_of_err h live⟩,
    fun h => get_terminal_attr_of_ok h live,
    ⟨?_, fun h => set_terminal_attr_of_err h v⟩,
    fun h => set_terminal_attr_of_ok h v⟩
  · intro h
    by_contra hne
    rw [cvt_of_ne e hne] at h
    exact absurd h (by simp)
  · intro h
    by_contra hne
    rw [get_terminal_attr_of_ok hne live] at h
    exact absurd h (by simp)
  · intro h
    by_contra hne
    rw [set_terminal_attr_of_ok hne v] at h
    exact absurd h (by simp)

/-- Witness for C10 at concrete inputs: `-1` fails, `-2` succeeds
unchanged. -/
theorem cvt_minus_one_threshold_witness :
    cvt 7 (-1) = Except.error 7 ∧ cvt 7 (-2) = Except.ok (-2) :=
  ⟨((cvt_minus_one_threshold 7 (-1) ⟨0, 0⟩ (0 : Nat) 0).1).mpr rfl,
   (cvt_minus_one_threshold 7 (-2) ⟨0, 0⟩ (0 : Nat) 0).2.1 (by decide)⟩

end TermionRaw
